import Mathlib

/-!
Verification development for the Zakat Management System (zakat_app.py).

The data model and all operations below are a shallow embedding of the
Python source: lists stand for the JSON arrays, association lists stand
for the JSON dictionaries and the per-year files on disk, and rational
numbers stand for the numeric amounts.  Spec-side summation functions
(cashBase, bankBase, ...) are stated separately and compared with the
embedded code in the theorems.
-/

/-- Member record as built by add_member_dialog. -/
structure Member where
  id : ℚ
  name : String
  mobile : String
  nic : String
  address : String
  photo : String
  deriving DecidableEq

/-- Cash record as built by add_cash_dialog. -/
structure CashRecord where
  id : ℚ
  holder : String
  location : String
  currency : String
  amount : ℚ
  deriving DecidableEq

/-- Bank record as built by add_bank_dialog. -/
structure BankRecord where
  id : ℚ
  name : String
  account : String
  type : String
  currency : String
  balance : ℚ
  deriving DecidableEq

/-- Receivable record: the calculation code reads fields currency and amount. -/
structure ReceivableRecord where
  currency : String
  amount : ℚ
  deriving DecidableEq

/-- Gold record as built by add_gold_dialog. -/
structure GoldRecord where
  id : ℚ
  owner : String
  description : String
  weight : ℚ
  purity : String
  deriving DecidableEq

/-- Property record as built by add_property_dialog; for_trade is the
string "yes" or "no" from the radio buttons. -/
structure PropertyRecord where
  id : ℚ
  name : String
  type : String
  location : String
  value : ℚ
  for_trade : String
  deriving DecidableEq

/-- Recipient record as built by add_recipient_dialog. -/
structure Recipient where
  id : ℚ
  name : String
  category : String
  nic : String
  mobile : String
  address : String
  photo : String
  nic_photo : String
  deriving DecidableEq

/-- Payment record as built by add_payment_dialog. -/
structure Payment where
  id : ℚ
  recipient_id : ℚ
  amount : ℚ
  method : String
  date : String
  notes : String
  deriving DecidableEq

/-- The settings object; currency_rates embeds the rate dictionary. -/
structure Settings where
  zakat_rate : ℚ
  nisab : ℚ
  gold_price_24k : ℚ
  gold_price_22k : ℚ
  gold_price_18k : ℚ
  currency_rates : List (String × ℚ)
  deriving DecidableEq

/-- One year's data document (self.data / one zakat_data_YEAR.json file). -/
structure Snapshot where
  members : List Member
  cash : List CashRecord
  banks : List BankRecord
  properties : List PropertyRecord
  receivables : List ReceivableRecord
  gold : List GoldRecord
  recipients : List Recipient
  payments : List Payment
  settings : Settings
  deriving DecidableEq

/-- Dictionary get with default 1: currency_rates.get(code, 1). -/
def rateOf : List (String × ℚ) → String → ℚ
  | [], _ => 1
  | (k, r) :: rest, c => if k = c then r else rateOf rest c

/-- The purity-tier price selection used by calculate_total_zakat
(lines 697-704): exactly "24" takes the 24k price, exactly "22" the 22k
price, anything else the 18k price. -/
def goldPrice (s : Settings) (purity : String) : ℚ :=
  if purity = "24" then s.gold_price_24k
  else if purity = "22" then s.gold_price_22k
  else s.gold_price_18k

/-- ZakatManager.calculate_total_zakat (lines 678-711): the five loops are
embedded as sequential folds over the same running total. -/
def calculate_total_zakat (d : Snapshot) : ℚ :=
  d.properties.foldl (fun acc p => if p.for_trade = "yes" then acc + p.value else acc)
    (d.gold.foldl (fun acc g => acc + g.weight * goldPrice d.settings g.purity)
      (d.receivables.foldl
        (fun acc r => acc + r.amount * rateOf d.settings.currency_rates r.currency)
        (d.banks.foldl
          (fun acc b => acc + b.balance * rateOf d.settings.currency_rates b.currency)
          (d.cash.foldl
            (fun acc c => acc + c.amount * rateOf d.settings.currency_rates c.currency)
            (0 : ℚ)))))
    * (d.settings.zakat_rate / 100)

/-- ZakatManager.calculate_total_paid (lines 713-714). -/
def calculate_total_paid (d : Snapshot) : ℚ :=
  (d.payments.map (fun p => p.amount)).sum

/-- The available/remaining figure the code recomputes at each use
(lines 616, 729, 858): total zakat minus total paid. -/
def remainingBalance (d : Snapshot) : ℚ :=
  calculate_total_zakat d - calculate_total_paid d

/-- ZakatManager.get_default_data (lines 52-74). -/
def get_default_data : Snapshot :=
  { members := [], cash := [], banks := [], properties := [], receivables := [],
    gold := [], recipients := [], payments := [],
    settings :=
      { zakat_rate := 2.5, nisab := 150000,
        gold_price_24k := 250000, gold_price_22k := 229000, gold_price_18k := 187500,
        currency_rates :=
          [("USD", 280), ("EUR", 305), ("CNY", 39), ("HKD", 36),
           ("SGD", 208), ("PKR", 1), ("AED", 76), ("SAR", 75),
           ("GBP", 355), ("JPY", 1.9)] } }

/-- Spec-side sum of the base values of the cash records. -/
def cashBase (d : Snapshot) : ℚ :=
  (d.cash.map (fun c => c.amount * rateOf d.settings.currency_rates c.currency)).sum

/-- Spec-side sum of the base values of the bank records. -/
def bankBase (d : Snapshot) : ℚ :=
  (d.banks.map (fun b => b.balance * rateOf d.settings.currency_rates b.currency)).sum

/-- Spec-side sum of the base values of the receivable records. -/
def receivableBase (d : Snapshot) : ℚ :=
  (d.receivables.map (fun r => r.amount * rateOf d.settings.currency_rates r.currency)).sum

/-- Spec-side sum of the values of the gold holdings. -/
def goldBase (d : Snapshot) : ℚ :=
  (d.gold.map (fun g => g.weight * goldPrice d.settings g.purity)).sum

/-- Spec-side sum of the trade-flagged property values. -/
def tradeBase (d : Snapshot) : ℚ :=
  (d.properties.map (fun p => if p.for_trade = "yes" then p.value else 0)).sum

/-- Spec-side sum of all zakatable base values. -/
def zakatableBase (d : Snapshot) : ℚ :=
  cashBase d + bankBase d + receivableBase d + goldBase d + tradeBase d

/-- ZakatManager.calculate_historical_zakat (lines 884-898): only cash and
bank records are summed, at the archived snapshot's own rates and
zakat_rate. -/
def calculate_historical_zakat (d : Snapshot) : ℚ :=
  d.banks.foldl
    (fun acc b => acc + b.balance * rateOf d.settings.currency_rates b.currency)
    (d.cash.foldl
      (fun acc c => acc + c.amount * rateOf d.settings.currency_rates c.currency)
      (0 : ℚ))
    * (d.settings.zakat_rate / 100)

/-- One row of the history tree (refresh_history, lines 876-880). -/
structure HistoryRow where
  year : Int
  totalZakat : ℚ
  totalPaid : ℚ
  remaining : ℚ
  memberCount : Nat
  recipientCount : Nat
  deriving DecidableEq

/-- The row refresh_history derives from one archived document. -/
def historyRow (y : Int) (d : Snapshot) : HistoryRow :=
  { year := y,
    totalZakat := calculate_historical_zakat d,
    totalPaid := (d.payments.map (fun p => p.amount)).sum,
    remaining := calculate_historical_zakat d - (d.payments.map (fun p => p.amount)).sum,
    memberCount := d.members.length,
    recipientCount := d.recipients.length }

/-- ZakatManager.refresh_history (lines 861-882): one derived row per
archived document. -/
def listHistory (h : List (Int × Snapshot)) : List HistoryRow :=
  h.map (fun p => historyRow p.1 p.2)

/-- The payment flow of add_payment_dialog (lines 611-673) on one snapshot:
the two dialog guards, then the save checks, in the source's order.  An
error models the message box being shown and the data left untouched. -/
def recordPayment (d : Snapshot) (pid : ℚ) (rname : String) (amount : ℚ)
    (method date notes : String) : Except String Snapshot :=
  if d.recipients = [] then .error "Please add recipients first!"
  else if remainingBalance d ≤ 0 then .error "No available Zakat funds!"
  else if amount > remainingBalance d then .error "Amount exceeds available funds!"
  else
    match d.recipients.find? (fun r => r.name == rname) with
    | none => .error "Please select a recipient!"
    | some r =>
        .ok { d with payments := d.payments ++
          [{ id := pid, recipient_id := r.id, amount := amount,
             method := method, date := date, notes := notes }] }

/-- Arguments of one attempted payment. -/
structure PayReq where
  pid : ℚ
  rname : String
  amount : ℚ
  method : String
  date : String
  notes : String

/-- One attempted payment: on failure the snapshot is unchanged. -/
def stepPayment (d : Snapshot) (r : PayReq) : Snapshot :=
  match recordPayment d r.pid r.rname r.amount r.method r.date r.notes with
  | .ok d2 => d2
  | .error _ => d

/-- A sequence of attempted payments. -/
def applyPayments (d : Snapshot) (reqs : List PayReq) : Snapshot :=
  reqs.foldl stepPayment d

/-- Whole-application state: the active year and its in-memory data, the
per-year documents of the data directory (store) and of the history
directory (history). -/
structure AppState where
  currentYear : Int
  data : Snapshot
  store : List (Int × Snapshot)
  history : List (Int × Snapshot)
  deriving DecidableEq

/-- Reading the document of one year from a directory. -/
def lookupYear : List (Int × Snapshot) → Int → Option Snapshot
  | [], _ => none
  | (k, s) :: rest, y => if k = y then some s else lookupYear rest y

/-- Writing (creating or overwriting) the document of one year. -/
def upsert : List (Int × Snapshot) → Int → Snapshot → List (Int × Snapshot)
  | [], y, s => [(y, s)]
  | (k, t) :: rest, y, s =>
      if k = y then (y, s) :: rest else (k, t) :: upsert rest y s

/-- ZakatManager.change_year (lines 917-929): no-op when the selected year
equals the current one; otherwise save the active data, copy it to the
history directory, then load the target year's document or the default
data when none exists. -/
def change_year (st : AppState) (newYear : Int) : AppState :=
  if newYear = st.currentYear then st
  else
    { currentYear := newYear,
      data := match lookupYear (upsert st.store st.currentYear st.data) newYear with
              | some s => s
              | none => get_default_data,
      store := upsert st.store st.currentYear st.data,
      history := upsert st.history st.currentYear st.data }

/-- ZakatManager.restore_from_history (lines 974-989): copy the active
year's persisted document into the history directory, then copy the
selected year's history document over the active document and reload.
A missing source file makes the underlying copy fail, modelled as none. -/
def restore_from_history (st : AppState) (target : Int) : Option AppState :=
  match lookupYear st.store st.currentYear with
  | none => none
  | some cur =>
      match lookupYear (upsert st.history st.currentYear cur) target with
      | none => none
      | some s =>
          some { currentYear := st.currentYear, data := s,
                 store := upsert st.store st.currentYear s,
                 history := upsert st.history st.currentYear cur }

/-- The payment flow at the application level: on success the new data is
also persisted to the active year's document (save_data, line 669). -/
def add_payment (st : AppState) (pid : ℚ) (rname : String) (amount : ℚ)
    (method date notes : String) : Except String AppState :=
  match recordPayment st.data pid rname amount method date notes with
  | .error e => .error e
  | .ok d2 => .ok { st with data := d2, store := upsert st.store st.currentYear d2 }

/-- The hard-coded currency list (line 28). -/
def currencies : List String :=
  ["USD", "EUR", "CNY", "HKD", "SGD", "PKR", "AED", "SAR", "GBP", "JPY"]

/-- Plain dictionary read: none models a KeyError on a missing key. -/
def tblGet : List (String × ℚ) → String → Option ℚ
  | [], _ => none
  | (k, v) :: rest, c => if k = c then some v else tblGet rest c

/-- In-place addition to an existing key. -/
def tblAdd : List (String × ℚ) → String → ℚ → List (String × ℚ)
  | [], _, _ => []
  | (k, v) :: rest, c, x =>
      if k = c then (k, v + x) :: rest else (k, v) :: tblAdd rest c x

/-- currency_totals[code] += value (lines 743-748): a missing key raises a
KeyError, modelled as an error value. -/
def addCurrency (tbl : List (String × ℚ)) (c : String) (x : ℚ) :
    Except String (List (String × ℚ)) :=
  match tblGet tbl c with
  | none => .error ("KeyError: " ++ c)
  | some _ => .ok (tblAdd tbl c x)

/-- Error-propagating fold of one record list into the totals table. -/
def foldCurrency {α : Type} (f : α → String) (g : α → ℚ) :
    List (String × ℚ) → List α → Except String (List (String × ℚ))
  | tbl, [] => .ok tbl
  | tbl, a :: rest =>
      match addCurrency tbl (f a) (g a) with
      | .error e => .error e
      | .ok tbl2 => foldCurrency f g tbl2 rest

/-- The per-currency aggregation of refresh_dashboard (lines 739-748): the
table is pre-initialised with exactly the ten hard-coded codes, then cash,
bank and receivable amounts are accumulated into it. -/
def currency_totals (d : Snapshot) : Except String (List (String × ℚ)) :=
  match foldCurrency (fun c => c.currency) (fun c => c.amount)
      (currencies.map (fun c => (c, (0 : ℚ)))) d.cash with
  | .error e => .error e
  | .ok t1 =>
      match foldCurrency (fun b => b.currency) (fun b => b.balance) t1 d.banks with
      | .error e => .error e
      | .ok t2 => foldCurrency (fun r => r.currency) (fun r => r.amount) t2 d.receivables

/-- Total gold value as recomputed by refresh_dashboard (lines 760-769). -/
def total_gold_value (d : Snapshot) : ℚ :=
  d.gold.foldl (fun acc g => acc + g.weight * goldPrice d.settings g.purity) 0

/-- The gold-summary zakat figure of the dashboard (line 771):
a hard-coded 2.5 percent of the total gold value. -/
def gold_summary_zakat (d : Snapshot) : ℚ :=
  total_gold_value d * (0.025 : ℚ)

/-- The per-row gold zakat column of refresh_gold (lines 828-829):
a hard-coded 2.5 percent of the row's value. -/
def gold_row_zakat (s : Settings) (g : GoldRecord) : ℚ :=
  g.weight * goldPrice s g.purity * (0.025 : ℚ)

/-- The property zakat column of refresh_assets (line 810): a hard-coded
2.5 percent of the value when the trade flag is set, otherwise 0. -/
def property_row_zakat (p : PropertyRecord) : ℚ :=
  if p.for_trade = "yes" then p.value * (0.025 : ℚ) else 0

/-- Boolean test that an Except value is an error. -/
def isError {α : Type} : Except String α → Bool
  | .error _ => true
  | .ok _ => false

/-- Concrete recipient used in the payment examples. -/
def recipAli : Recipient :=
  { id := 11, name := "Ali", category := "Poor (Fuqara)", nic := "", mobile := "",
    address := "", photo := "", nic_photo := "" }

/-- Concrete snapshot with 40000 PKR cash and one recipient: at the default
settings its obligation is 1000 and nothing is paid. -/
def snapPay : Snapshot :=
  { get_default_data with
    cash := [{ id := 1, holder := "h", location := "home", currency := "PKR",
               amount := 40000 }],
    recipients := [recipAli] }

/-- Application state around snapPay. -/
def stPay : AppState :=
  { currentYear := 2025, data := snapPay, store := [(2025, snapPay)], history := [] }

/-- Concrete snapshot holding only one 5-tola 24k gold record. -/
def snapGold : Snapshot :=
  { get_default_data with
    gold := [{ id := 3, owner := "o", description := "ring", weight := 5,
               purity := "24" }] }

/-- Concrete snapshot with some cash, distinct from the default snapshot. -/
def snapA : Snapshot :=
  { get_default_data with
    cash := [{ id := 4, holder := "a", location := "x", currency := "PKR",
               amount := 10 }] }

/-- The default snapshot, as a distinct archived content. -/
def snapB : Snapshot := get_default_data

/-- State whose history already holds an archive under the active year key. -/
def stC5 : AppState :=
  { currentYear := 2025, data := snapA, store := [(2025, snapA)],
    history := [(2025, snapB)] }

/-- The state stC5 reaches after restoring year 2025: the original archive
content snapB has been overwritten by snapA. -/
def stC5post : AppState :=
  { currentYear := 2025, data := snapA, store := [(2025, snapA)],
    history := [(2025, snapA)] }

/-- State with an ordinary archived year 2020 distinct from the active 2025. -/
def stW5 : AppState :=
  { currentYear := 2025, data := snapA, store := [(2025, snapA)],
    history := [(2020, snapB)] }

/-- State with persisted documents for the active year and for 2024. -/
def stC7 : AppState :=
  { currentYear := 2025, data := snapPay,
    store := [(2025, snapPay), (2024, snapGold)], history := [] }

/-- Snapshot with a configured zakat rate of 5 percent. -/
def snapRateFive : Snapshot :=
  { get_default_data with
    settings := { get_default_data.settings with zakat_rate := 5 } }

/-- Snapshot with a 5 percent rate and one 5-tola 24k gold record. -/
def snapC8 : Snapshot :=
  { snapRateFive with
    gold := [{ id := 9, owner := "o", description := "d", weight := 5,
               purity := "24" }] }

/-- Concrete cash record in a currency outside the hard-coded list. -/
def cFX : CashRecord :=
  { id := 2, holder := "h", location := "x", currency := "XYZ", amount := 5 }

/-- Snapshot holding cash in a currency outside the hard-coded list. -/
def snapFX : Snapshot := { get_default_data with cash := [cFX] }

lemma cashFold (rates : List (String × ℚ)) (l : List CashRecord) : ∀ a : ℚ,
    l.foldl (fun acc c => acc + c.amount * rateOf rates c.currency) a
      = a + (l.map (fun c => c.amount * rateOf rates c.currency)).sum := by
  induction l with
  | nil => intro a; simp
  | cons x xs ih => intro a; simp [ih, add_assoc]

lemma bankFold (rates : List (String × ℚ)) (l : List BankRecord) : ∀ a : ℚ,
    l.foldl (fun acc b => acc + b.balance * rateOf rates b.currency) a
      = a + (l.map (fun b => b.balance * rateOf rates b.currency)).sum := by
  induction l with
  | nil => intro a; simp
  | cons x xs ih => intro a; simp [ih, add_assoc]

lemma recvFold (rates : List (String × ℚ)) (l : List ReceivableRecord) : ∀ a : ℚ,
    l.foldl (fun acc r => acc + r.amount * rateOf rates r.currency) a
      = a + (l.map (fun r => r.amount * rateOf rates r.currency)).sum := by
  induction l with
  | nil => intro a; simp
  | cons x xs ih => intro a; simp [ih, add_assoc]

lemma goldFold (s : Settings) (l : List GoldRecord) : ∀ a : ℚ,
    l.foldl (fun acc g => acc + g.weight * goldPrice s g.purity) a
      = a + (l.map (fun g => g.weight * goldPrice s g.purity)).sum := by
  induction l with
  | nil => intro a; simp
  | cons x xs ih => intro a; simp [ih, add_assoc]

lemma propFold (l : List PropertyRecord) : ∀ a : ℚ,
    l.foldl (fun acc p => if p.for_trade = "yes" then acc + p.value else acc) a
      = a + (l.map (fun p => if p.for_trade = "yes" then p.value else 0)).sum := by
  induction l with
  | nil => intro a; simp
  | cons x xs ih =>
      intro a
      by_cases h : x.for_trade = "yes" <;> simp [h, ih, add_assoc]

/-- Shared characterisation of calculate_total_zakat as a rate times the
spec-side zakatable base. -/
lemma calculate_total_zakat_eq (d : Snapshot) :
    calculate_total_zakat d = d.settings.zakat_rate / 100 * zakatableBase d := by
  unfold calculate_total_zakat zakatableBase cashBase bankBase receivableBase goldBase tradeBase
  rw [cashFold, bankFold, recvFold, goldFold, propFold]
  ring

/-- Claim C1: calculate_total_zakat returns (zakat_rate/100) times the sum of
zakatable base values — cash, bank and receivable amounts converted with the
rate table (rate 1 when absent), gold at weight times the purity-tier price,
trade property at declared value only when the trade flag is "yes" — and it
returns 0 on the default (empty) snapshot. -/
theorem C1_obligation_formula (d : Snapshot) :
    calculate_total_zakat d = d.settings.zakat_rate / 100 * zakatableBase d
    ∧ calculate_total_zakat get_default_data = 0 :=
  ⟨calculate_total_zakat_eq d, by
    simp [calculate_total_zakat_eq, zakatableBase, cashBase, bankBase,
      receivableBase, goldBase, tradeBase, get_default_data]⟩

/-- Claim C4: the purity string resolves the tier price — exactly "24" gives
the 24k price, exactly "22" the 22k price, and any other string the 18k
price; the holding's value is weight times that price. -/
theorem C4_gold_tier (s : Settings) (w : ℚ) (p : String) :
    (p = "24" → w * goldPrice s p = w * s.gold_price_24k)
    ∧ (p = "22" → w * goldPrice s p = w * s.gold_price_22k)
    ∧ (p ≠ "24" → p ≠ "22" → w * goldPrice s p = w * s.gold_price_18k) := by
  refine ⟨fun h => ?_, fun h => ?_, fun h1 h2 => ?_⟩
  · subst h
    simp [goldPrice]
  · subst h
    simp [goldPrice]
  · simp [goldPrice, h1, h2]

/-- Witness for C4 at a concrete unrecognized purity string. -/
theorem C4_gold_tier_witness :
    (3 : ℚ) * goldPrice get_default_data.settings "junk"
      = 3 * get_default_data.settings.gold_price_18k :=
  (C4_gold_tier get_default_data.settings 3 "junk").2.2 (by decide) (by decide)

lemma lookupYear_upsert_self (l : List (Int × Snapshot)) (y : Int) (s : Snapshot) :
    lookupYear (upsert l y s) y = some s := by
  induction l with
  | nil => simp [upsert, lookupYear]
  | cons p rest ih =>
      obtain ⟨k, t⟩ := p
      by_cases h : k = y
      · simp [upsert, h, lookupYear]
      · simp [upsert, h, lookupYear, ih]

lemma lookupYear_upsert_ne (l : List (Int × Snapshot)) (y : Int) (s : Snapshot)
    {z : Int} (h : z ≠ y) :
    lookupYear (upsert l y s) z = lookupYear l z := by
  induction l with
  | nil => simp [upsert, lookupYear, Ne.symm h]
  | cons p rest ih =>
      obtain ⟨k, t⟩ := p
      by_cases hk : k = y
      · subst hk
        simp [upsert, lookupYear, Ne.symm h]
      · by_cases hz : k = z
        · simp [upsert, hk, lookupYear, hz, h]
        · simp [upsert, hk, lookupYear, hz, ih]

lemma recordPayment_ok {d : Snapshot} {pid : ℚ} {rname : String} {amount : ℚ}
    {method date notes : String} {d2 : Snapshot}
    (h : recordPayment d pid rname amount method date notes = .ok d2) :
    ∃ r, d.recipients.find? (fun x => x.name == rname) = some r ∧
      d2 = { d with payments := d.payments ++
        [{ id := pid, recipient_id := r.id, amount := amount,
           method := method, date := date, notes := notes }] } := by
  unfold recordPayment at h
  split at h
  · exact Except.noConfusion h
  · split at h
    · exact Except.noConfusion h
    · split at h
      · exact Except.noConfusion h
      · split at h
        · exact Except.noConfusion h
        · next r heq =>
            injection h with h2
            exact ⟨r, heq, h2.symm⟩

lemma recordPayment_err_of_find_none {d : Snapshot} {pid : ℚ} {rname : String}
    {amount : ℚ} {method date notes : String}
    (hf : d.recipients.find? (fun x => x.name == rname) = none) :
    ∃ e, recordPayment d pid rname amount method date notes = .error e := by
  unfold recordPayment
  split
  · exact ⟨_, rfl⟩
  · split
    · exact ⟨_, rfl⟩
    · split
      · exact ⟨_, rfl⟩
      · rw [hf]
        exact ⟨_, rfl⟩

lemma recordPayment_err_of_exceeds {d : Snapshot} {pid : ℚ} {rname : String}
    {amount : ℚ} {method date notes : String}
    (hgt : amount > remainingBalance d) :
    ∃ e, recordPayment d pid rname amount method date notes = .error e := by
  unfold recordPayment
  by_cases h1 : d.recipients = []
  · rw [if_pos h1]
    exact ⟨_, rfl⟩
  · rw [if_neg h1]
    by_cases h2 : remainingBalance d ≤ 0
    · rw [if_pos h2]
      exact ⟨_, rfl⟩
    · rw [if_neg h2, if_pos hgt]
      exact ⟨_, rfl⟩

lemma calculate_total_zakat_record {d d2 : Snapshot} {pid : ℚ} {rname : String}
    {amount : ℚ} {method date notes : String}
    (h : recordPayment d pid rname amount method date notes = .ok d2) :
    calculate_total_zakat d2 = calculate_total_zakat d := by
  obtain ⟨r, _, rfl⟩ := recordPayment_ok h
  rfl

lemma zakat_step (d : Snapshot) (r : PayReq) :
    calculate_total_zakat (stepPayment d r) = calculate_total_zakat d := by
  unfold stepPayment
  cases hrec : recordPayment d r.pid r.rname r.amount r.method r.date r.notes with
  | error e => rfl
  | ok d2 => exact calculate_total_zakat_record hrec

lemma applyPayments_zakat (reqs : List PayReq) : ∀ d : Snapshot,
    calculate_total_zakat (applyPayments d reqs) = calculate_total_zakat d := by
  induction reqs with
  | nil => intro d; rfl
  | cons r rs ih =>
      intro d
      have h1 : applyPayments d (r :: rs) = applyPayments (stepPayment d r) rs := rfl
      rw [h1, ih, zakat_step]

/-- Claim C6: after any sequence of attempted recordPayment calls the
remaining balance equals calculate_total_zakat minus the sum of the payment
amounts of the snapshot — it is recomputed from the snapshot, and the
obligation itself is unchanged by payments. -/
theorem C6_remaining_balance (d : Snapshot) (reqs : List PayReq) :
    remainingBalance (applyPayments d reqs)
        = calculate_total_zakat (applyPayments d reqs)
          - ((applyPayments d reqs).payments.map (fun p => p.amount)).sum
    ∧ calculate_total_zakat (applyPayments d reqs) = calculate_total_zakat d :=
  ⟨rfl, applyPayments_zakat reqs d⟩

/-- Claim C9: when the selected name resolves to a recipient and the
remaining balance is strictly positive, every amount up to and including
the balance is accepted — zero and negative amounts included, only the
strict greater-than check exists — and when the remaining balance is zero
or negative no payment can be made at all. -/
theorem C9_amount_check (d : Snapshot) (pid : ℚ) (rname : String) (amount : ℚ)
    (method date notes : String) :
    (∀ r, d.recipients.find? (fun x => x.name == rname) = some r →
      0 < remainingBalance d → amount ≤ remainingBalance d →
      recordPayment d pid rname amount method date notes =
        .ok { d with payments := d.payments ++
          [{ id := pid, recipient_id := r.id, amount := amount,
             method := method, date := date, notes := notes }] })
    ∧ (remainingBalance d ≤ 0 →
      ∃ e, recordPayment d pid rname amount method date notes = .error e) := by
  constructor
  · intro r hr h0 hle
    have hne : ¬ d.recipients = [] := by
      intro hnil
      rw [hnil] at hr
      simp at hr
    unfold recordPayment
    rw [if_neg hne, if_neg (not_le.mpr h0), if_neg (not_lt.mpr hle), hr]
  · intro h0
    unfold recordPayment
    by_cases he : d.recipients = []
    · rw [if_pos he]
      exact ⟨_, rfl⟩
    · rw [if_neg he, if_pos h0]
      exact ⟨_, rfl⟩

/-- Witness for C9: with obligation 1000 and nothing paid, a payment of
exactly the whole remaining balance is accepted. -/
theorem C9_amount_check_witness :
    recordPayment snapPay 7 "Ali" 1000 "Cash" "2025-01-01" "" =
      .ok { snapPay with payments := snapPay.payments ++
        [{ id := 7, recipient_id := recipAli.id, amount := 1000,
           method := "Cash", date := "2025-01-01", notes := "" }] } := by
  have hbal : remainingBalance snapPay = 1000 := by
    simp [remainingBalance, calculate_total_zakat, calculate_total_paid,
      snapPay, get_default_data, rateOf]
    norm_num
  apply (C9_amount_check snapPay 7 "Ali" 1000 "Cash" "2025-01-01" "").1 recipAli
  · rfl
  · rw [hbal]
    norm_num
  · rw [hbal]

/-- Claim C3: the payment flow fails when the selected name resolves to no
recipient or when the amount exceeds the remaining balance computed at call
time (on failure no snapshot is produced, so the payment list is
unchanged), and on success exactly one payment is appended, every other
part of the snapshot is unchanged, and the new data is persisted under the
active year. -/
theorem C3_record_payment (st : AppState) (pid : ℚ) (rname : String)
    (amount : ℚ) (method date notes : String) :
    (st.data.recipients.find? (fun x => x.name == rname) = none →
      ∃ e, add_payment st pid rname amount method date notes = .error e)
    ∧ (amount > remainingBalance st.data →
      ∃ e, add_payment st pid rname amount method date notes = .error e)
    ∧ (∀ st', add_payment st pid rname amount method date notes = .ok st' →
      ∃ r, st.data.recipients.find? (fun x => x.name == rname) = some r
        ∧ st'.data.payments = st.data.payments ++
            [{ id := pid, recipient_id := r.id, amount := amount,
               method := method, date := date, notes := notes }]
        ∧ st'.data.cash = st.data.cash
        ∧ st'.data.banks = st.data.banks
        ∧ st'.data.properties = st.data.properties
        ∧ st'.data.receivables = st.data.receivables
        ∧ st'.data.gold = st.data.gold
        ∧ st'.data.recipients = st.data.recipients
        ∧ st'.data.settings = st.data.settings
        ∧ st'.currentYear = st.currentYear
        ∧ lookupYear st'.store st'.currentYear = some st'.data) := by
  refine ⟨fun hf => ?_, fun hgt => ?_, fun st' hok => ?_⟩
  · obtain ⟨e, he⟩ :=
      @recordPayment_err_of_find_none st.data pid rname amount method date notes hf
    refine ⟨e, ?_⟩
    unfold add_payment
    rw [he]
  · obtain ⟨e, he⟩ :=
      @recordPayment_err_of_exceeds st.data pid rname amount method date notes hgt
    refine ⟨e, ?_⟩
    unfold add_payment
    rw [he]
  · unfold add_payment at hok
    cases hrec : recordPayment st.data pid rname amount method date notes with
    | error e =>
        rw [hrec] at hok
        exact Except.noConfusion hok
    | ok d2 =>
        rw [hrec] at hok
        injection hok with h2
        obtain ⟨r, hfind, hd2⟩ := recordPayment_ok hrec
        subst hd2
        subst h2
        exact ⟨r, hfind, rfl, rfl, rfl, rfl, rfl, rfl, rfl, rfl, rfl,
          lookupYear_upsert_self _ _ _⟩

/-- Witness for C3 at the spec's example: obligation 1000, nothing paid,
a payment of 1500 is rejected. -/
theorem C3_record_payment_witness :
    remainingBalance stPay.data = 1000
    ∧ isError (add_payment stPay 0 "Ali" 1500 "Cash" "2025-03-01" "x") = true := by
  have hbal : remainingBalance stPay.data = 1000 := by
    simp [remainingBalance, calculate_total_zakat, calculate_total_paid,
      stPay, snapPay, get_default_data, rateOf]
    norm_num
  refine ⟨hbal, ?_⟩
  obtain ⟨e, he⟩ := (C3_record_payment stPay 0 "Ali" 1500 "Cash" "2025-03-01" "x").2.1
    (by rw [hbal]; norm_num)
  rw [he]
  rfl

/-- Claim C7: change_year is a no-op when the target equals the active
year; otherwise the active data is archived under its year key, the target
year becomes active, and its data is the persisted document for the target
when one exists, or the default data when none does. -/
theorem C7_switch_year (st : AppState) (target : Int) :
    (target = st.currentYear → change_year st target = st)
    ∧ (target ≠ st.currentYear →
        (change_year st target).currentYear = target
        ∧ lookupYear (change_year st target).history st.currentYear = some st.data
        ∧ (∀ s, lookupYear st.store target = some s →
            (change_year st target).data = s)
        ∧ (lookupYear st.store target = none →
            (change_year st target).data = get_default_data)) := by
  constructor
  · intro h
    unfold change_year
    rw [if_pos h]
  · intro h
    unfold change_year
    rw [if_neg h]
    have hframe : lookupYear (upsert st.store st.currentYear st.data) target
        = lookupYear st.store target := lookupYear_upsert_ne _ _ _ h
    refine ⟨rfl, lookupYear_upsert_self _ _ _, fun s hs => ?_, fun hn => ?_⟩
    · simp only [hframe, hs]
    · simp only [hframe, hn]

/-- Witness for C7: switching from 2025 to 2024 loads year 2024's stored
document. -/
theorem C7_switch_year_witness :
    (change_year stC7 2024).currentYear = 2024
    ∧ (change_year stC7 2024).data = snapGold := by
  have h := (C7_switch_year stC7 2024).2 (by decide)
  exact ⟨h.1, h.2.2.1 snapGold rfl⟩

/-- Counterexample for C5: restoring the year equal to the active year
first overwrites that year's original archive with the active data, so the
original target archive (snapB) does not survive restore_from_history. -/
theorem C5_restore_cex :
    restore_from_history stC5 2025 = some stC5post
    ∧ lookupYear stC5.history 2025 = some snapB
    ∧ lookupYear stC5post.history 2025 = some snapA
    ∧ snapA ≠ snapB := by
  refine ⟨rfl, rfl, rfl, ?_⟩
  intro h
  have hc := congrArg Snapshot.cash h
  simp [snapA, snapB, get_default_data] at hc

/-- Claim C5, amended to a target other than the active year: the active
document is archived under its own key first, the archived content of the
target is copied into the active slot, the active-year identifier is
unchanged, and the target's archive entry (and every other year's entry)
is untouched. -/
theorem C5_restore_amended (st : AppState) (target : Int) (s : Snapshot)
    (hwt : lookupYear st.store st.currentYear = some st.data)
    (hne : target ≠ st.currentYear)
    (hs : lookupYear st.history target = some s) :
    restore_from_history st target =
      some { currentYear := st.currentYear, data := s,
             store := upsert st.store st.currentYear s,
             history := upsert st.history st.currentYear st.data }
    ∧ lookupYear (upsert st.history st.currentYear st.data) target = some s
    ∧ lookupYear (upsert st.history st.currentYear st.data) st.currentYear
        = some st.data
    ∧ (∀ y, y ≠ st.currentYear →
        lookupYear (upsert st.history st.currentYear st.data) y
          = lookupYear st.history y) := by
  have hl : lookupYear (upsert st.history st.currentYear st.data) target
      = lookupYear st.history target := lookupYear_upsert_ne _ _ _ hne
  refine ⟨?_, hl.trans hs, lookupYear_upsert_self _ _ _,
    fun y hy => lookupYear_upsert_ne _ _ _ hy⟩
  simp only [restore_from_history, hwt, hl, hs]

/-- Witness for C5 at a concrete state: restoring archived year 2020 into
active year 2025. -/
theorem C5_restore_witness :
    restore_from_history stW5 2020 =
      some { currentYear := 2025, data := snapB,
             store := upsert stW5.store 2025 snapB,
             history := upsert stW5.history 2025 snapA }
    ∧ lookupYear (upsert stW5.history 2025 snapA) 2020 = some snapB := by
  have h := C5_restore_amended stW5 2020 snapB rfl (by decide) rfl
  exact ⟨h.1, h.2.1⟩

/-- Counterexample for C2: for an archived snapshot holding only gold, the
history row reports obligation 0 while calculate_total_zakat on the same
snapshot gives 31250 — the historical computation does not match the
active-snapshot computation. -/
theorem C2_history_cex :
    listHistory [(2020, snapGold)] = [historyRow 2020 snapGold]
    ∧ (historyRow 2020 snapGold).totalZakat = 0
    ∧ calculate_total_zakat snapGold = 31250 := by
  refine ⟨rfl, ?_, ?_⟩
  · simp [historyRow, calculate_historical_zakat, snapGold, get_default_data]
  · simp [calculate_total_zakat, snapGold, get_default_data, goldPrice, rateOf]
    norm_num

/-- Claim C2, amended: the obligation listHistory reports for an archived
snapshot is calculate_historical_zakat of that snapshot, which covers only
cash and bank records (converted at the snapshot's own rates with the
rate-1 fallback and multiplied by its zakat_rate/100), excluding
receivables, gold and trade property; the totalPaid figure is the
snapshot's payment sum and the remaining figure is the historical
obligation minus totalPaid. -/
theorem C2_history_amended (h : List (Int × Snapshot)) (y : Int) (d : Snapshot)
    (hm : (y, d) ∈ h) :
    historyRow y d ∈ listHistory h
    ∧ (historyRow y d).totalZakat
        = d.settings.zakat_rate / 100 * (cashBase d + bankBase d)
    ∧ (historyRow y d).totalPaid = calculate_total_paid d
    ∧ (historyRow y d).remaining
        = (historyRow y d).totalZakat - (historyRow y d).totalPaid := by
  refine ⟨List.mem_map_of_mem _ hm, ?_, rfl, rfl⟩
  show calculate_historical_zakat d = _
  unfold calculate_historical_zakat cashBase bankBase
  rw [cashFold, bankFold]
  ring

/-- Witness for C2 on a one-entry history. -/
theorem C2_history_witness :
    historyRow 2020 snapGold ∈ listHistory [(2020, snapGold)]
    ∧ (historyRow 2020 snapGold).totalZakat
        = snapGold.settings.zakat_rate / 100 * (cashBase snapGold + bankBase snapGold) := by
  have h := C2_history_amended [(2020, snapGold)] 2020 snapGold (by simp)
  exact ⟨h.1, h.2.1⟩

lemma flat_rate_ne {v r : ℚ} (hv : v ≠ 0) (hr : r ≠ 2.5) :
    v * (0.025 : ℚ) ≠ v * (r / 100) := by
  intro h
  apply hr
  have h2 := mul_left_cancel₀ hv h
  have h3 : r = (0.025 : ℚ) * 100 := by
    field_simp at h2
    linarith
  rw [h3]
  norm_num

/-- Counterexample for C8: with a configured rate of 5 percent but no gold
recorded, the dashboard's gold-summary zakat figure (0) equals the gold
contribution to the obligation (0), so the figures do not disagree on
every snapshot whose rate differs from 2.5. -/
theorem C8_flat_rate_cex :
    snapRateFive.settings.zakat_rate ≠ 2.5
    ∧ gold_summary_zakat snapRateFive
        = total_gold_value snapRateFive * (snapRateFive.settings.zakat_rate / 100) := by
  constructor
  · simp [snapRateFive, get_default_data]
    norm_num
  · simp [gold_summary_zakat, total_gold_value, snapRateFive, get_default_data]

/-- Claim C8, amended: the dashboard gold-summary zakat, the per-row gold
zakat and the property zakat column are always the asset value times the
hard-coded 0.025, and whenever the configured zakat_rate differs from 2.5
and the relevant asset value is nonzero, these figures disagree with that
asset's contribution (value times zakat_rate/100) to the obligation. -/
theorem C8_flat_rate_amended (d : Snapshot) (hr : d.settings.zakat_rate ≠ 2.5) :
    gold_summary_zakat d = total_gold_value d * (0.025 : ℚ)
    ∧ total_gold_value d = goldBase d
    ∧ (∀ g : GoldRecord, gold_row_zakat d.settings g
        = g.weight * goldPrice d.settings g.purity * (0.025 : ℚ))
    ∧ (∀ p : PropertyRecord, p.for_trade = "yes" →
        property_row_zakat p = p.value * (0.025 : ℚ))
    ∧ (total_gold_value d ≠ 0 →
        gold_summary_zakat d ≠ total_gold_value d * (d.settings.zakat_rate / 100))
    ∧ (∀ g : GoldRecord, g.weight * goldPrice d.settings g.purity ≠ 0 →
        gold_row_zakat d.settings g
          ≠ g.weight * goldPrice d.settings g.purity * (d.settings.zakat_rate / 100))
    ∧ (∀ p : PropertyRecord, p.for_trade = "yes" → p.value ≠ 0 →
        property_row_zakat p ≠ p.value * (d.settings.zakat_rate / 100)) := by
  refine ⟨rfl, ?_, fun g => rfl, fun p hp => ?_, fun hv => flat_rate_ne hv hr,
    fun g hv => flat_rate_ne hv hr, fun p hp hv => ?_⟩
  · unfold total_gold_value goldBase
    rw [goldFold]
    simp
  · unfold property_row_zakat
    rw [if_pos hp]
  · unfold property_row_zakat
    rw [if_pos hp]
    exact flat_rate_ne hv hr

/-- Witness for C8: with rate 5 and 5 tolas of 24k gold, the dashboard's
gold-summary zakat differs from the gold contribution to the obligation. -/
theorem C8_flat_rate_witness :
    gold_summary_zakat snapC8
      ≠ total_gold_value snapC8 * (snapC8.settings.zakat_rate / 100) := by
  have hr : snapC8.settings.zakat_rate ≠ 2.5 := by
    simp [snapC8, snapRateFive, get_default_data]
    norm_num
  have hv : total_gold_value snapC8 ≠ 0 := by
    simp [total_gold_value, snapC8, snapRateFive, get_default_data, goldPrice]
  exact (C8_flat_rate_amended snapC8 hr).2.2.2.2.1 hv

lemma tblGet_some_mem : ∀ (tbl : List (String × ℚ)) (c : String) (v : ℚ),
    tblGet tbl c = some v → c ∈ tbl.map Prod.fst := by
  intro tbl
  induction tbl with
  | nil => intro c v h; exact Option.noConfusion h
  | cons p rest ih =>
      intro c v h
      obtain ⟨k, w⟩ := p
      by_cases hk : k = c
      · simp [hk]
      · simp only [tblGet] at h
        rw [if_neg hk] at h
        simp only [List.map_cons]
        exact List.mem_cons_of_mem _ (ih c v h)

lemma tblAdd_keys : ∀ (tbl : List (String × ℚ)) (c : String) (x : ℚ),
    (tblAdd tbl c x).map Prod.fst = tbl.map Prod.fst := by
  intro tbl
  induction tbl with
  | nil => intro c x; rfl
  | cons p rest ih =>
      intro c x
      obtain ⟨k, v⟩ := p
      by_cases hk : k = c <;> simp [tblAdd, hk, ih]

lemma addCurrency_ok_keys {tbl tbl2 : List (String × ℚ)} {c : String} {x : ℚ}
    (h : addCurrency tbl c x = .ok tbl2) :
    tbl2.map Prod.fst = tbl.map Prod.fst := by
  unfold addCurrency at h
  cases hg : tblGet tbl c with
  | none => rw [hg] at h; exact Except.noConfusion h
  | some v =>
      rw [hg] at h
      injection h with h2
      rw [← h2]
      exact tblAdd_keys _ _ _

lemma addCurrency_ok_mem {tbl tbl2 : List (String × ℚ)} {c : String} {x : ℚ}
    (h : addCurrency tbl c x = .ok tbl2) :
    c ∈ tbl.map Prod.fst := by
  unfold addCurrency at h
  cases hg : tblGet tbl c with
  | none => rw [hg] at h; exact Except.noConfusion h
  | some v => exact tblGet_some_mem _ _ _ hg

lemma foldCurrency_ok {α : Type} (f : α → String) (g : α → ℚ) :
    ∀ (l : List α) (tbl tbl2 : List (String × ℚ)),
      foldCurrency f g tbl l = .ok tbl2 →
      tbl2.map Prod.fst = tbl.map Prod.fst ∧ ∀ a ∈ l, f a ∈ tbl.map Prod.fst := by
  intro l
  induction l with
  | nil =>
      intro tbl tbl2 h
      injection h with h2
      constructor
      · rw [h2]
      · simp
  | cons a rest ih =>
      intro tbl tbl2 h
      unfold foldCurrency at h
      cases hadd : addCurrency tbl (f a) (g a) with
      | error e => rw [hadd] at h; exact Except.noConfusion h
      | ok tblm =>
          rw [hadd] at h
          obtain ⟨hkeys, hmem⟩ := ih tblm tbl2 h
          have hk2 := addCurrency_ok_keys hadd
          refine ⟨hkeys.trans hk2, ?_⟩
          intro b hb
          rcases List.mem_cons.mp hb with hba | hb2
          · rw [hba]; exact addCurrency_ok_mem hadd
          · rw [← hk2]; exact hmem b hb2

lemma currency_totals_ok_mem {d : Snapshot} {t : List (String × ℚ)}
    (h : currency_totals d = .ok t) :
    (∀ c ∈ d.cash, c.currency ∈ currencies)
    ∧ (∀ b ∈ d.banks, b.currency ∈ currencies)
    ∧ (∀ r ∈ d.receivables, r.currency ∈ currencies) := by
  unfold currency_totals at h
  have hkeys0 : (currencies.map (fun c => (c, (0 : ℚ)))).map Prod.fst = currencies := by
    decide
  cases h1 : foldCurrency (fun c => c.currency) (fun c => c.amount)
      (currencies.map (fun c => (c, (0 : ℚ)))) d.cash with
  | error e =>
      simp only [h1] at h
      exact Except.noConfusion h
  | ok t1 =>
      simp only [h1] at h
      obtain ⟨hk1, hm1⟩ := foldCurrency_ok _ _ _ _ _ h1
      cases h2 : foldCurrency (fun b => b.currency) (fun b => b.balance) t1 d.banks with
      | error e =>
          simp only [h2] at h
          exact Except.noConfusion h
      | ok t2 =>
          simp only [h2] at h
          obtain ⟨hk2, hm2⟩ := foldCurrency_ok _ _ _ _ _ h2
          obtain ⟨hk3, hm3⟩ := foldCurrency_ok _ _ _ _ _ h
          refine ⟨fun c hc => ?_, fun b hb => ?_, fun r hrr => ?_⟩
          · have hx := hm1 c hc
            rwa [hkeys0] at hx
          · have hx := hm2 b hb
            rwa [hk1, hkeys0] at hx
          · have hx := hm3 r hrr
            rwa [hk2, hk1, hkeys0] at hx

lemma rateOf_not_mem : ∀ (rates : List (String × ℚ)) (c : String),
    c ∉ rates.map Prod.fst → rateOf rates c = 1 := by
  intro rates
  induction rates with
  | nil => intro c _; rfl
  | cons p rest ih =>
      intro c h
      obtain ⟨k, v⟩ := p
      simp only [List.map_cons, List.mem_cons, not_or] at h
      simp only [rateOf]
      rw [if_neg (fun hk => h.1 hk.symm)]
      exact ih c h.2

/-- Claim C10: the dashboard's per-currency table is pre-initialised with
exactly the ten hard-coded codes, so any cash, bank or receivable record
whose currency is outside that list makes the aggregation raise a KeyError
(modelled as an error value), while calculate_total_zakat converts the same
record with the rate-1 fallback of the rate table. -/
theorem C10_currency_breakdown (d : Snapshot)
    (h : (∃ c ∈ d.cash, c.currency ∉ currencies)
       ∨ (∃ b ∈ d.banks, b.currency ∉ currencies)
       ∨ (∃ r ∈ d.receivables, r.currency ∉ currencies)) :
    (∃ e, currency_totals d = .error e)
    ∧ (∀ (rates : List (String × ℚ)) (c : String),
        c ∉ rates.map Prod.fst → rateOf rates c = 1) := by
  constructor
  · cases hct : currency_totals d with
    | error e => exact ⟨e, rfl⟩
    | ok t =>
        exfalso
        obtain ⟨hc, hb, hr⟩ := currency_totals_ok_mem hct
        rcases h with ⟨c, hcm, hnc⟩ | ⟨b, hbm, hnb⟩ | ⟨r, hrm, hnr⟩
        · exact hnc (hc c hcm)
        · exact hnb (hb b hbm)
        · exact hnr (hr r hrm)
  · exact rateOf_not_mem

/-- Witness for C10: a snapshot with cash held in the currency XYZ makes
the dashboard aggregation fail. -/
theorem C10_currency_breakdown_witness :
    isError (currency_totals snapFX) = true := by
  obtain ⟨e, he⟩ := (C10_currency_breakdown snapFX
    (Or.inl ⟨cFX, by simp [snapFX], by decide⟩)).1
  rw [he]
  rfl
